import Mathlib

/-
  Verification development for the financial-formula module `excel`
  (PV, FV, RATE, PMT, PPMT, IPMT, NPER, EFFECT, NOMINAL).

  The functions are shallowly embedded over the real numbers.  JavaScript
  number arithmetic on finite operands is modelled by exact real arithmetic;
  the special values NaN and ±Infinity, which matter for the claims about
  non-finite results and error sentinels (NPER, EFFECT, NOMINAL), are
  modelled explicitly by the type `JSNum` below.  The model collapses the
  IEEE signed zeros -0 and +0 into the single real 0; a remark is placed at
  each definition where this could matter.
-/

noncomputable section

open scoped Classical

/-- Convergence tolerance `epsMax = 1e-10` of the RATE iteration (source: `var epsMax=1e-10`). -/
def epsMax : ℝ := 1e-10

/-- Iteration cap of the RATE iteration (source: `var iterMax=50`). -/
def iterMax : ℕ := 50

/-- Present value, from the source:
`PV(rate,periods,payment,future,type)`:
if `rate===0` then `-payment*periods-future` else
`(((1-Math.pow(1+rate,periods))/rate)*payment*(1+rate*type)-future)/Math.pow(1+rate,periods)`.
`Math.pow` on a positive base equals real `rpow`, the `^` used here. -/
def PV (rate periods payment future type : ℝ) : ℝ :=
  if rate = 0 then
    -payment * periods - future
  else
    (((1 - (1 + rate) ^ periods) / rate) * payment * (1 + rate * type) - future) /
      (1 + rate) ^ periods

/-- Future value, from the source:
`FV(rate,periods,payment,value,type)`:
if `rate===0` then `value+payment*periods` else `term=Math.pow(1+rate,periods)`;
if `type===1` then `value*term+payment*(1+rate)*(term-1.0)/rate`
else `value*term+payment*(term-1)/rate`; the result is negated on return. -/
def FV (rate periods payment value type : ℝ) : ℝ :=
  if rate = 0 then
    -(value + payment * periods)
  else
    if type = 1 then
      -(value * (1 + rate) ^ periods +
        payment * (1 + rate) * ((1 + rate) ^ periods - 1) / rate)
    else
      -(value * (1 + rate) ^ periods + payment * ((1 + rate) ^ periods - 1) / rate)

/-- Loan payment, from the source:
`PMT(rate,periods,present,future,type)`:
if `rate===0` then `(present+future)/periods` else `term=Math.pow(1+rate,periods)`;
if `type===1` then `(future*rate/(term-1)+present*rate/(1-1/term))/(1+rate)`
else `future*rate/(term-1)+present*rate/(1-1/term)`; the result is negated on return. -/
def PMT (rate periods present future type : ℝ) : ℝ :=
  if rate = 0 then
    -((present + future) / periods)
  else
    if type = 1 then
      -((future * rate / ((1 + rate) ^ periods - 1) +
         present * rate / (1 - 1 / (1 + rate) ^ periods)) / (1 + rate))
    else
      -(future * rate / ((1 + rate) ^ periods - 1) +
        present * rate / (1 - 1 / (1 + rate) ^ periods))

/-- Interest payment for a given period, from the source:
`IPMT(rate,period,periods,present,future,type)`: computes
`payment=PMT(...)`; if `period===1` then interest is `0` (type 1) or `-present`
(otherwise); for later periods the interest is the outstanding balance obtained via
`FV` at `period-2` (type 1, minus one payment) or `period-1`; returns `interest*rate`. -/
def IPMT (rate period periods present future type : ℝ) : ℝ :=
  (if period = 1 then
    (if type = 1 then 0 else -present)
  else
    (if type = 1 then
      FV rate (period - 2) (PMT rate periods present future type) present 1 -
        PMT rate periods present future type
    else
      FV rate (period - 1) (PMT rate periods present future type) present 0)) * rate

/-- Principal payment for a given period, from the source:
`PPMT(rate,period,periods,present,future,type)`:
`excel.PMT(rate,periods,present,future,type)-excel.IPMT(rate,period,periods,present,future,type)`. -/
def PPMT (rate period periods present future type : ℝ) : ℝ :=
  PMT rate periods present future type - IPMT rate period periods present future type

/-- State of the RATE secant iteration: the two previous estimates `x0`, `x1`
and their residuals `y0`, `y1`.  The source variable `rate` always equals `x1`
(it is copied into `x1` right after each update), so it is not stored separately. -/
structure RState where
  x0 : ℝ
  x1 : ℝ
  y0 : ℝ
  y1 : ℝ

/-- Residual evaluation inside the RATE loop, from the source: when
`Math.abs(rate)<epsMax`, `y=present*(1+periods*rate)+payment*(1+rate*type)*periods+future`;
otherwise `f=Math.exp(periods*Math.log(1+rate))` and
`y=present*f+payment*(1/rate+type)*(f-1)+future`. -/
def rateResidual (periods payment present future type r : ℝ) : ℝ :=
  if |r| < epsMax then
    present * (1 + periods * r) + payment * (1 + r * type) * periods + future
  else
    present * Real.exp (periods * Real.log (1 + r)) +
      payment * (1 / r + type) * (Real.exp (periods * Real.log (1 + r)) - 1) + future

/-- One iteration of the RATE loop, from the source:
`rate=(y1*x0-y0*x1)/(y1-y0); x0=x1; x1=rate;` then the residual of the new
rate is computed and `y0=y1; y1=y`. -/
def rateStep (periods payment present future type : ℝ) (s : RState) : RState :=
  ⟨s.x1, (s.y1 * s.x0 - s.y0 * s.x1) / (s.y1 - s.y0), s.y1,
    rateResidual periods payment present future type
      ((s.y1 * s.x0 - s.y0 * s.x1) / (s.y1 - s.y0))⟩

/-- The RATE while-loop, from the source:
`while ((Math.abs(y0-y1) > epsMax) && (i<iterMax)) { ... } return rate;`
modelled with the remaining iteration budget as fuel; the returned `rate` is `x1`. -/
def rateGo (periods payment present future type : ℝ) : ℕ → RState → ℝ
  | 0, s => s.x1
  | k + 1, s =>
    if |s.y0 - s.y1| ≤ epsMax then s.x1
    else rateGo periods payment present future type k
      (rateStep periods payment present future type s)

/-- Initial state of the RATE iteration, from the source: `rate=guess`;
`f` is `0` unless `Math.abs(rate)>=epsMax`, in which case
`f=Math.exp(periods*Math.log(1+rate))`; then `y0=present+payment*periods+future`,
`y1=present*f+payment*(1/rate+type)*(f-1)+future`, `x0=0`, `x1=rate`.
(The initial `y` computed by the source before the loop is dead: `y1` is
recomputed from `f` directly, and the loop overwrites `y` before reading it.) -/
def rateInit (periods payment present future type guess : ℝ) : RState :=
  ⟨0, guess, present + payment * periods + future,
    present * (if |guess| < epsMax then 0
               else Real.exp (periods * Real.log (1 + guess))) +
      payment * (1 / guess + type) *
        ((if |guess| < epsMax then 0
          else Real.exp (periods * Real.log (1 + guess))) - 1) + future⟩

/-- Interest rate solver, from the source `RATE(periods,payment,present,future,type,guess)`
(defaults `guess=0.01`, `future=0`, `type=0` are supplied by callers of the model). -/
def RATE (periods payment present future type guess : ℝ) : ℝ :=
  rateGo periods payment present future type iterMax
    (rateInit periods payment present future type guess)

/-- Modelled from the spec (section 4.7), for comparison with `rateResidual`:
"evaluate the residual `y` at each new `rate` using a linearized formula when
`|rate| < 1e-10` ... and the exponential formula otherwise", the linearized
formula being `present*(1+periods*rate)+payment*(1+rate*type)*periods+future`
and the exponential one `present*f + payment*(1/rate+type)*(f-1) + future`
with `f = (1+rate)^periods`; for `1+rate > 0` the power is written in the
equivalent form `exp(periods*log(1+rate))`, the expression the source computes. -/
def secantResidual (periods payment present future type r : ℝ) : ℝ :=
  if |r| < epsMax then
    present * (1 + periods * r) + payment * (1 + r * type) * periods + future
  else
    present * Real.exp (periods * Real.log (1 + r)) +
      payment * (1 / r + type) * (Real.exp (periods * Real.log (1 + r)) - 1) + future

/-- Modelled from the spec (section 4.7): "maintain two prior (x, y) pairs and
update `rate = (y1*x0 - y0*x1)/(y1-y0)`", then evaluate the residual at the new rate. -/
def secantStep (periods payment present future type : ℝ) (s : RState) : RState :=
  ⟨s.x1, (s.y1 * s.x0 - s.y0 * s.x1) / (s.y1 - s.y0), s.y1,
    secantResidual periods payment present future type
      ((s.y1 * s.x0 - s.y0 * s.x1) / (s.y1 - s.y0))⟩

/-- Modelled from the spec (section 4.7): "Terminates when `|y0 - y1| <= 1e-10`
or after 50 iterations, returning the current rate estimate in either case". -/
def secantGo (periods payment present future type : ℝ) : ℕ → RState → ℝ
  | 0, s => s.x1
  | k + 1, s =>
    if |s.y0 - s.y1| ≤ epsMax then s.x1
    else secantGo periods payment present future type k
      (secantStep periods payment present future type s)

/-- Modelled from the spec (section 4.7): "Initial state: x0 = 0 with y0 =
residual assuming rate=0 (linear approximation); x1 = guess with y1 = residual
at guess." -/
def RATEspec (periods payment present future type guess : ℝ) : ℝ :=
  secantGo periods payment present future type iterMax
    ⟨0, guess, present + payment * periods + future,
      secantResidual periods payment present future type guess⟩

/-- A JavaScript number: an exact real, one of the two infinities, or NaN.
The IEEE signed zeros -0 and +0 are both modelled by `num 0`; each operation
below notes where this loses sign information. -/
inductive JSNum where
  | num (x : ℝ)
  | posInf
  | negInf
  | nan

namespace JSNum

/-- JS `Number.isFinite` semantics: only an actual real is finite. -/
def isFinite : JSNum → Prop
  | num _ => True
  | _ => False

end JSNum

/-- JS `<=` comparison: any comparison with NaN is false. -/
def jsLe : JSNum → JSNum → Prop
  | JSNum.nan, _ => False
  | _, JSNum.nan => False
  | JSNum.negInf, _ => True
  | _, JSNum.posInf => True
  | JSNum.posInf, _ => False
  | JSNum.num _, JSNum.negInf => False
  | JSNum.num x, JSNum.num y => x ≤ y

/-- JS `<` comparison: any comparison with NaN is false. -/
def jsLt : JSNum → JSNum → Prop
  | JSNum.nan, _ => False
  | _, JSNum.nan => False
  | JSNum.posInf, _ => False
  | JSNum.negInf, JSNum.negInf => False
  | JSNum.negInf, _ => True
  | JSNum.num _, JSNum.posInf => True
  | JSNum.num _, JSNum.negInf => False
  | JSNum.num x, JSNum.num y => x < y

/-- JS addition on the extended numbers (finite arithmetic is exact). -/
def jsAdd : JSNum → JSNum → JSNum
  | JSNum.nan, _ => JSNum.nan
  | _, JSNum.nan => JSNum.nan
  | JSNum.posInf, JSNum.negInf => JSNum.nan
  | JSNum.negInf, JSNum.posInf => JSNum.nan
  | JSNum.posInf, _ => JSNum.posInf
  | _, JSNum.posInf => JSNum.posInf
  | JSNum.negInf, _ => JSNum.negInf
  | _, JSNum.negInf => JSNum.negInf
  | JSNum.num x, JSNum.num y => JSNum.num (x + y)

/-- JS subtraction on the extended numbers (finite arithmetic is exact). -/
def jsSub : JSNum → JSNum → JSNum
  | JSNum.nan, _ => JSNum.nan
  | _, JSNum.nan => JSNum.nan
  | JSNum.posInf, JSNum.posInf => JSNum.nan
  | JSNum.posInf, _ => JSNum.posInf
  | JSNum.negInf, JSNum.negInf => JSNum.nan
  | JSNum.negInf, _ => JSNum.negInf
  | JSNum.num _, JSNum.posInf => JSNum.negInf
  | JSNum.num _, JSNum.negInf => JSNum.posInf
  | JSNum.num x, JSNum.num y => JSNum.num (x - y)

/-- JS multiplication on the extended numbers; `Infinity * 0` is NaN. -/
def jsMul : JSNum → JSNum → JSNum
  | JSNum.nan, _ => JSNum.nan
  | _, JSNum.nan => JSNum.nan
  | JSNum.posInf, JSNum.posInf => JSNum.posInf
  | JSNum.posInf, JSNum.negInf => JSNum.negInf
  | JSNum.negInf, JSNum.posInf => JSNum.negInf
  | JSNum.negInf, JSNum.negInf => JSNum.posInf
  | JSNum.posInf, JSNum.num x =>
    if x = 0 then JSNum.nan else if 0 < x then JSNum.posInf else JSNum.negInf
  | JSNum.num x, JSNum.posInf =>
    if x = 0 then JSNum.nan else if 0 < x then JSNum.posInf else JSNum.negInf
  | JSNum.negInf, JSNum.num x =>
    if x = 0 then JSNum.nan else if 0 < x then JSNum.negInf else JSNum.posInf
  | JSNum.num x, JSNum.negInf =>
    if x = 0 then JSNum.nan else if 0 < x then JSNum.negInf else JSNum.posInf
  | JSNum.num x, JSNum.num y => JSNum.num (x * y)

/-- JS division on the extended numbers.  Division of a nonzero finite value or
an infinity by zero follows the `+0` divisor convention of the single-zero
model (the sign of the divisor zero is lost); `0/0` and `Infinity/Infinity` are NaN. -/
def jsDiv : JSNum → JSNum → JSNum
  | JSNum.nan, _ => JSNum.nan
  | _, JSNum.nan => JSNum.nan
  | JSNum.posInf, JSNum.posInf => JSNum.nan
  | JSNum.posInf, JSNum.negInf => JSNum.nan
  | JSNum.negInf, JSNum.posInf => JSNum.nan
  | JSNum.negInf, JSNum.negInf => JSNum.nan
  | JSNum.posInf, JSNum.num x => if 0 ≤ x then JSNum.posInf else JSNum.negInf
  | JSNum.negInf, JSNum.num x => if 0 ≤ x then JSNum.negInf else JSNum.posInf
  | JSNum.num _, JSNum.posInf => JSNum.num 0
  | JSNum.num _, JSNum.negInf => JSNum.num 0
  | JSNum.num x, JSNum.num y =>
    if y = 0 then
      (if x = 0 then JSNum.nan else if 0 < x then JSNum.posInf else JSNum.negInf)
    else JSNum.num (x / y)

/-- JS `Math.log`: NaN on NaN and on negative arguments, `-Infinity` at zero. -/
def jsLog : JSNum → JSNum
  | JSNum.nan => JSNum.nan
  | JSNum.posInf => JSNum.posInf
  | JSNum.negInf => JSNum.nan
  | JSNum.num x =>
    if x < 0 then JSNum.nan
    else if x = 0 then JSNum.negInf
    else JSNum.num (Real.log x)

/-- The real `e` is an integer (used by the `Math.pow` special cases). -/
def IsIntR (e : ℝ) : Prop := ∃ m : ℤ, e = m

/-- The real `e` is an odd integer (used by the `Math.pow` special cases). -/
def IsOddIntR (e : ℝ) : Prop := ∃ m : ℤ, e = 2 * m + 1

/-- JS `Math.pow` following the ECMAScript `Number::exponentiate` case table:
NaN exponent gives NaN, zero exponent gives 1 (even for NaN base), then the
special cases for infinite or zero operands and for a negative base with a
non-integer exponent; the remaining finite case is the exact real power
(`Real.rpow`, which agrees with the IEEE real result there, including a
negative base with integer exponent).  Signed-zero results are collapsed to `num 0`. -/
def jsPow : JSNum → JSNum → JSNum
  | _, JSNum.nan => JSNum.nan
  | b, JSNum.posInf =>
    (match b with
     | JSNum.nan => JSNum.nan
     | JSNum.posInf => JSNum.posInf
     | JSNum.negInf => JSNum.posInf
     | JSNum.num x =>
       if |x| = 1 then JSNum.nan
       else if 1 < |x| then JSNum.posInf else JSNum.num 0)
  | b, JSNum.negInf =>
    (match b with
     | JSNum.nan => JSNum.nan
     | JSNum.posInf => JSNum.num 0
     | JSNum.negInf => JSNum.num 0
     | JSNum.num x =>
       if |x| = 1 then JSNum.nan
       else if 1 < |x| then JSNum.num 0 else JSNum.posInf)
  | b, JSNum.num e =>
    if e = 0 then JSNum.num 1
    else
      (match b with
       | JSNum.nan => JSNum.nan
       | JSNum.posInf => if 0 < e then JSNum.posInf else JSNum.num 0
       | JSNum.negInf =>
         if 0 < e then (if IsOddIntR e then JSNum.negInf else JSNum.posInf)
         else JSNum.num 0
       | JSNum.num x =>
         if x = 0 then (if 0 < e then JSNum.num 0 else JSNum.posInf)
         else if x < 0 ∧ ¬ IsIntR e then JSNum.nan
         else JSNum.num (x ^ e))

/-- JS `parseInt(x, 10)` restricted to the needs of EFFECT and NOMINAL:
a finite value is truncated toward zero; `parseInt` of ±Infinity or NaN is NaN
(their string forms do not start with a digit).  (For finite values at or above
1e21 the actual `parseInt` parses the scientific-notation string instead of
truncating; no claim in scope involves such a value.) -/
def jsParseInt : JSNum → JSNum
  | JSNum.num x => JSNum.num (if 0 ≤ x then (⌊x⌋ : ℝ) else (⌈x⌉ : ℝ))
  | _ => JSNum.nan

/-- An `Except` result is the error variant. -/
def isErr {ε α : Type} : Except ε α → Prop
  | Except.error _ => True
  | Except.ok _ => False

/-- Number of periods, from the source `NPER(rate,payment,present,future,type)`:
`num=payment*(1+rate*type)-future*rate; den=(present*rate+payment*(1+rate*type));
return Math.log(num/den)/Math.log(1+rate);`.  The finite input arithmetic for
`num`, `den` and `1+rate` is exact real arithmetic; the division and the two
logarithms, which can produce NaN or infinities, use the JS model. -/
def NPERjs (rate payment present future type : ℝ) : JSNum :=
  jsDiv
    (jsLog (jsDiv (JSNum.num (payment * (1 + rate * type) - future * rate))
                  (JSNum.num (present * rate + payment * (1 + rate * type)))))
    (jsLog (JSNum.num (1 + rate)))

/-- Effective annual rate, from the source `EFFECT(rate,periods)`:
`if(isNaN(rate)||isNaN(periods)) return "#VALUE!";`
`if(rate<=0||periods<1) return "#NUM!";`
`periods=parseInt(periods,10);`
`return Math.pow(1+rate/periods,periods)-1;`. -/
def EFFECT (rate periods : JSNum) : Except String JSNum :=
  if rate = JSNum.nan ∨ periods = JSNum.nan then Except.error ("#VALUE!")
  else if jsLe rate (JSNum.num 0) ∨ jsLt periods (JSNum.num 1) then Except.error ("#NUM!")
  else
    Except.ok (jsSub
      (jsPow (jsAdd (JSNum.num 1) (jsDiv rate (jsParseInt periods))) (jsParseInt periods))
      (JSNum.num 1))

/-- Nominal annual rate, from the source `NOMINAL(rate,periods)`:
`if(isNaN(rate)||isNaN(periods)) return "#VALUE!";`
`if(rate<=0||periods<1) return "#NUM!";`
`periods=parseInt(periods,10);`
`return (Math.pow(rate+1,1/periods)-1)*periods;`. -/
def NOMINAL (rate periods : JSNum) : Except String JSNum :=
  if rate = JSNum.nan ∨ periods = JSNum.nan then Except.error ("#VALUE!")
  else if jsLe rate (JSNum.num 0) ∨ jsLt periods (JSNum.num 1) then Except.error ("#NUM!")
  else
    Except.ok (jsMul
      (jsSub (jsPow (jsAdd rate (JSNum.num 1)) (jsDiv (JSNum.num 1) (jsParseInt periods)))
             (JSNum.num 1))
      (jsParseInt periods))

/-- Claim C9: for every rate, periods, present, future, type and every period
p in [1, periods], PPMT + IPMT equals PMT exactly (PPMT is defined as the
difference, so the split is exact by construction). -/
theorem ppmt_ipmt_split_exact (rate p periods present future type : ℝ)
    (hp1 : 1 ≤ p) (hpn : p ≤ periods) :
    PPMT rate p periods present future type + IPMT rate p periods present future type =
      PMT rate periods present future type := by
  unfold PPMT
  ring

/-- Witness for C9 at rate 1/10, period 2 of 12, present 1000, future 0, type 0. -/
theorem ppmt_ipmt_split_exact_witness :
    PPMT (1/10) 2 12 1000 0 0 + IPMT (1/10) 2 12 1000 0 0 = PMT (1/10) 12 1000 0 0 :=
  ppmt_ipmt_split_exact (1/10) 2 12 1000 0 0 (by norm_num) (by norm_num)

/-- The RATE loop returns the current estimate as soon as the residual gap is
within tolerance (also at fuel 0, where the iteration cap has been reached). -/
theorem rateGo_stop (periods payment present future type : ℝ) (k : ℕ) (s : RState)
    (h : |s.y0 - s.y1| ≤ epsMax) :
    rateGo periods payment present future type k s = s.x1 := by
  cases k with
  | zero => rfl
  | succ k => simp [rateGo, h]

/-- The RATE loop iterates once when the residual gap exceeds the tolerance. -/
theorem rateGo_cont (periods payment present future type : ℝ) (k : ℕ) (s : RState)
    (h : epsMax < |s.y0 - s.y1|) :
    rateGo periods payment present future type (k + 1) s =
      rateGo periods payment present future type k
        (rateStep periods payment present future type s) := by
  simp [rateGo, not_le.mpr h]

/-- Fuel-indexed termination invariant of the RATE loop: the loop runs some
`k ≤ fuel` steps, returns the `x1` of the `k`-th iterate, every earlier iterate
had residual gap above the tolerance, and if the fuel was not exhausted the
final gap is within tolerance. -/
theorem rateGo_iterates (periods payment present future type : ℝ) :
    ∀ (fuel : ℕ) (s : RState), ∃ k ≤ fuel,
      rateGo periods payment present future type fuel s =
        ((rateStep periods payment present future type)^[k] s).x1 ∧
      (∀ j < k, epsMax <
        |((rateStep periods payment present future type)^[j] s).y0 -
          ((rateStep periods payment present future type)^[j] s).y1|) ∧
      (k < fuel →
        |((rateStep periods payment present future type)^[k] s).y0 -
          ((rateStep periods payment present future type)^[k] s).y1| ≤ epsMax) := by
  intro fuel
  induction fuel with
  | zero =>
    intro s
    exact ⟨0, le_refl 0, rfl, fun j hj => absurd hj (Nat.not_lt_zero j),
      fun h => absurd h (lt_irrefl 0)⟩
  | succ m ih =>
    intro s
    by_cases h : |s.y0 - s.y1| ≤ epsMax
    · exact ⟨0, Nat.zero_le _,
        rateGo_stop periods payment present future type (m + 1) s h,
        fun j hj => absurd hj (Nat.not_lt_zero j), fun _ => h⟩
    · obtain ⟨k, hk, hgo, hmin, hconv⟩ :=
        ih (rateStep periods payment present future type s)
      refine ⟨k + 1, Nat.succ_le_succ hk, ?_, ?_, ?_⟩
      · rw [rateGo_cont periods payment present future type m s (not_le.mp h), hgo,
          Function.iterate_succ_apply]
      · intro j hj
        cases j with
        | zero => simpa using not_le.mp h
        | succ j =>
          rw [Function.iterate_succ_apply]
          exact hmin j (Nat.lt_of_succ_lt_succ hj)
      · intro hlt
        rw [Function.iterate_succ_apply]
        exact hconv (Nat.lt_of_succ_lt_succ hlt)

/-- Claim C3: for every input, RATE terminates after some k ≤ 50 loop
iterations (one residual evaluation each, after the two initial ones); it
stops at the first iterate whose residual gap is within 1e-10 if one occurs
within the budget, and in every case — convergence or exhaustion — the value
returned is the current rate estimate `x1`, with no distinction between the
two outcomes. -/
theorem rate_terminates_within_cap (periods payment present future type guess : ℝ) :
    ∃ k ≤ iterMax,
      RATE periods payment present future type guess =
        ((rateStep periods payment present future type)^[k]
          (rateInit periods payment present future type guess)).x1 ∧
      (∀ j < k, epsMax <
        |((rateStep periods payment present future type)^[j]
            (rateInit periods payment present future type guess)).y0 -
          ((rateStep periods payment present future type)^[j]
            (rateInit periods payment present future type guess)).y1|) ∧
      (k < iterMax →
        |((rateStep periods payment present future type)^[k]
            (rateInit periods payment present future type guess)).y0 -
          ((rateStep periods payment present future type)^[k]
            (rateInit periods payment present future type guess)).y1| ≤ epsMax) :=
  rateGo_iterates periods payment present future type iterMax
    (rateInit periods payment present future type guess)

/-- The compounding factor is positive when 1 + rate is. -/
theorem term_pos {r : ℝ} (h : 0 < 1 + r) (n : ℝ) : 0 < (1 + r) ^ n :=
  Real.rpow_pos_of_pos h n

/-- The compounding factor differs from 1 for a nonzero rate with 1 + rate > 0
and a nonzero number of periods. -/
theorem term_ne_one {r n : ℝ} (h : 0 < 1 + r) (hr : r ≠ 0) (hn : n ≠ 0) :
    (1 + r) ^ n ≠ 1 := by
  rw [Real.rpow_def_of_pos h]
  intro heq
  rw [Real.exp_eq_one_iff] at heq
  rcases mul_eq_zero.mp heq with h1 | h1
  · rcases Real.log_eq_zero.mp h1 with h2 | h2 | h2
    · exact absurd h2 (ne_of_gt h)
    · exact hr (by linarith)
    · linarith
  · exact hn h1

/-- Claim C1: for rate ≠ 0 with 1 + rate > 0 and periods > 0, the payment
computed by PMT fully amortizes the present value: feeding it back into FV
with future target 0 gives exactly 0 under exact real arithmetic. -/
theorem payment_amortizes_present_value (rate periods pv : ℝ)
    (hr : rate ≠ 0) (h1r : 0 < 1 + rate) (hn : 0 < periods) :
    FV rate periods (PMT rate periods pv 0 0) pv 0 = 0 := by
  have hT0 : ((1 + rate) ^ periods : ℝ) ≠ 0 := ne_of_gt (term_pos h1r periods)
  have hT1 : ((1 + rate) ^ periods : ℝ) ≠ 1 := term_ne_one h1r hr (ne_of_gt hn)
  have hTm1 : ((1 + rate) ^ periods : ℝ) - 1 ≠ 0 := sub_ne_zero.mpr hT1
  have hd : (1 : ℝ) - 1 / (1 + rate) ^ periods ≠ 0 := by
    rw [sub_ne_zero]
    intro h
    exact hT1 ((div_eq_one_iff_eq hT0).mp h.symm).symm
  unfold FV PMT
  rw [if_neg hr, if_neg hr, if_neg (by norm_num : (0 : ℝ) ≠ 1),
    if_neg (by norm_num : (0 : ℝ) ≠ 1)]
  field_simp
  ring

/-- Witness for C1 at rate 1, periods 2, present value 100
(the compounding factor is (1+1)^2 = 4). -/
theorem payment_amortizes_present_value_witness :
    FV 1 2 (PMT 1 2 100 0 0) 100 0 = 0 :=
  payment_amortizes_present_value 1 2 100 (by norm_num) (by norm_num) (by norm_num)

/-- Claim C6: for every rate > -1, periods, payment, future and
type ∈ {0, 1}, FV applied to the PV of those cash flows returns exactly the
future value, including the rate = 0 branch. -/
theorem fv_inverts_pv (rate periods payment future type : ℝ)
    (h1r : -1 < rate) (ht : type = 0 ∨ type = 1) :
    FV rate periods payment (PV rate periods payment future type) type = future := by
  have h1r0 : 0 < 1 + rate := by linarith
  by_cases hr : rate = 0
  · subst hr
    unfold FV PV
    rw [if_pos rfl, if_pos rfl]
    ring
  · have hT0 : ((1 + rate) ^ periods : ℝ) ≠ 0 := ne_of_gt (term_pos h1r0 periods)
    rcases ht with ht | ht
    · subst ht
      unfold FV PV
      rw [if_neg hr, if_neg hr, if_neg (by norm_num : (0 : ℝ) ≠ 1)]
      field_simp
      ring
    · subst ht
      unfold FV PV
      rw [if_neg hr, if_neg hr, if_pos rfl]
      field_simp
      ring

/-- Witness for C6 at rate 1, periods 2, payment 3, future 5, type 1. -/
theorem fv_inverts_pv_witness :
    FV 1 2 3 (PV 1 2 3 5 1) 1 = 5 :=
  fv_inverts_pv 1 2 3 5 1 (by norm_num) (Or.inr rfl)

/-- Dividing the JS logarithm of a nonpositive value by anything is never finite:
the logarithm is NaN (negative argument or -Infinity) or -Infinity (argument 0),
and dividing NaN or an infinity by any JS number yields NaN or an infinity. -/
theorem div_log_nonpos_not_finite (q d : JSNum) (h : jsLe q (JSNum.num 0)) :
    ¬ (jsDiv (jsLog q) d).isFinite := by
  cases q with
  | nan => simp [jsLe] at h
  | posInf => simp [jsLe] at h
  | negInf =>
    cases d <;> simp [jsLog, jsDiv, JSNum.isFinite]
  | num x =>
    have hx : x ≤ 0 := by simpa [jsLe] using h
    rcases lt_or_eq_of_le hx with hlt | heq
    · have hlog : jsLog (JSNum.num x) = JSNum.nan := by simp [jsLog, hlt]
      rw [hlog]
      cases d <;> simp [jsDiv, JSNum.isFinite]
    · have hlog : jsLog (JSNum.num x) = JSNum.negInf := by
        simp [jsLog, heq]
      rw [hlog]
      cases d with
      | nan => simp [jsDiv, JSNum.isFinite]
      | posInf => simp [jsDiv, JSNum.isFinite]
      | negInf => simp [jsDiv, JSNum.isFinite]
      | num c =>
        by_cases h0 : 0 ≤ c <;> simp [jsDiv, h0, JSNum.isFinite]

/-- Claim C5 (amended): NPER returns a non-finite value whenever the JS value
of num/den is ≤ 0, where num = payment·(1+rate·type) − future·rate and
den = present·rate + payment·(1+rate·type).  (At rate = −1 with a positive
finite ratio the result is instead the finite −0; see the counterexample.) -/
theorem nper_nonpos_ratio_not_finite (rate payment present future type : ℝ)
    (h : jsLe (jsDiv (JSNum.num (payment * (1 + rate * type) - future * rate))
                     (JSNum.num (present * rate + payment * (1 + rate * type))))
              (JSNum.num 0)) :
    ¬ (NPERjs rate payment present future type).isFinite := by
  unfold NPERjs
  exact div_log_nonpos_not_finite _ _ h

/-- Witness for C5 at rate 1, payment −1, present 1, future 0, type 0,
where den = 0 and num = −1, so the JS ratio is −Infinity ≤ 0. -/
theorem nper_nonpos_ratio_not_finite_witness :
    ¬ (NPERjs 1 (-1) 1 0 0).isFinite :=
  nper_nonpos_ratio_not_finite 1 (-1) 1 0 0 (by norm_num [jsDiv, jsLe])

/-- Counterexample to claim C5 as stated: at rate = −1 with payment 1,
present 0, future 0, type 0 the ratio num/den is 1 > 0, and NPER returns
log(1)/log(0) = 0/(−Infinity) = −0, a finite number, not a non-finite value. -/
theorem nper_rate_neg_one_finite :
    NPERjs (-1) 1 0 0 0 = JSNum.num 0 ∧ (NPERjs (-1) 1 0 0 0).isFinite := by
  have h : NPERjs (-1) 1 0 0 0 = JSNum.num 0 := by
    norm_num [NPERjs, jsDiv, jsLog, Real.log_one]
  exact ⟨h, by rw [h]; trivial⟩

/-- Claim C7 (amended): rate = 0 is specially handled and yields the finite
linear-cash-flow value in PV, FV, PMT, IPMT and PPMT; NPER, however, has no
zero-rate branch and returns NaN at rate 0 (log(num/den)/log(1) divides by
zero; see the counterexample). -/
theorem zero_rate_special_handling
    (periods p payment present value future type : ℝ) (hn : 0 < periods) :
    PV 0 periods payment future type = -payment * periods - future ∧
    FV 0 periods payment value type = -(value + payment * periods) ∧
    PMT 0 periods present future type = -((present + future) / periods) ∧
    IPMT 0 p periods present future type = 0 ∧
    PPMT 0 p periods present future type = -((present + future) / periods) ∧
    ¬ (NPERjs 0 payment present future type).isFinite := by
  have hIPMT : IPMT 0 p periods present future type = 0 := mul_zero _
  refine ⟨?_, ?_, ?_, hIPMT, ?_, ?_⟩
  · unfold PV
    rw [if_pos rfl]
  · unfold FV
    rw [if_pos rfl]
  · unfold PMT
    rw [if_pos rfl]
  · unfold PPMT
    rw [hIPMT, sub_zero]
    unfold PMT
    rw [if_pos rfl]
  · have e1 : payment * (1 + 0 * type) - future * 0 = payment := by ring
    have e2 : present * 0 + payment * (1 + 0 * type) = payment := by ring
    unfold NPERjs
    rw [e1, e2]
    by_cases hp : payment = 0
    · simp [hp, jsDiv, jsLog, JSNum.isFinite]
    · have hq : jsDiv (JSNum.num payment) (JSNum.num payment) = JSNum.num 1 := by
        simp [jsDiv, hp, div_self hp]
      rw [hq]
      norm_num [jsDiv, jsLog, Real.log_one, JSNum.isFinite]

/-- Witness for C7 at periods 12, period 2, payment 7, present 100, value 50,
future 3, type 0. -/
theorem zero_rate_special_handling_witness :
    PV 0 12 7 3 0 = -7 * 12 - 3 ∧
    FV 0 12 7 50 0 = -(50 + 7 * 12) ∧
    PMT 0 12 100 3 0 = -((100 + 3) / 12) ∧
    IPMT 0 2 12 100 3 0 = 0 ∧
    PPMT 0 2 12 100 3 0 = -((100 + 3) / 12) ∧
    ¬ (NPERjs 0 7 100 3 0).isFinite :=
  zero_rate_special_handling 12 2 7 100 50 3 0 (by norm_num)

/-- Counterexample to claim C7 as stated: NPER with rate 0, payment 1,
present 1, future 0, type 0 evaluates log(1/1)/log(1) = 0/0 = NaN, not a
finite number — NPER has no zero-rate branch. -/
theorem nper_zero_rate_not_finite : ¬ (NPERjs 0 1 1 0 0).isFinite := by
  norm_num [NPERjs, jsDiv, jsLog, Real.log_one, JSNum.isFinite]

/-- Claim C4 (amended): EFFECT and NOMINAL return an error sentinel exactly
when an argument is NaN, or the rate argument is ≤ 0, or the periods argument
is < 1 (JS comparisons); on every other input — including infinite arguments,
which the source does **not** reject — the result is a JS number. -/
theorem effect_nominal_domain_errors (a b : JSNum) :
    (isErr (EFFECT a b) ↔
      a = JSNum.nan ∨ b = JSNum.nan ∨ jsLe a (JSNum.num 0) ∨ jsLt b (JSNum.num 1)) ∧
    (isErr (NOMINAL a b) ↔
      a = JSNum.nan ∨ b = JSNum.nan ∨ jsLe a (JSNum.num 0) ∨ jsLt b (JSNum.num 1)) ∧
    (¬ (a = JSNum.nan ∨ b = JSNum.nan ∨ jsLe a (JSNum.num 0) ∨ jsLt b (JSNum.num 1)) →
      (∃ v, EFFECT a b = Except.ok v) ∧ ∃ w, NOMINAL a b = Except.ok w) := by
  by_cases h1 : a = JSNum.nan ∨ b = JSNum.nan
  · refine ⟨?_, ?_, ?_⟩
    · simp only [EFFECT, if_pos h1]
      simp [isErr]
      tauto
    · simp only [NOMINAL, if_pos h1]
      simp [isErr]
      tauto
    · intro hc
      exact absurd h1 (by tauto)
  · by_cases h2 : jsLe a (JSNum.num 0) ∨ jsLt b (JSNum.num 1)
    · refine ⟨?_, ?_, ?_⟩
      · simp only [EFFECT, if_neg h1, if_pos h2]
        simp [isErr]
        tauto
      · simp only [NOMINAL, if_neg h1, if_pos h2]
        simp [isErr]
        tauto
      · intro hc
        exact absurd h2 (by tauto)
    · refine ⟨?_, ?_, ?_⟩
      · simp only [EFFECT, if_neg h1, if_neg h2]
        simp [isErr]
        tauto
      · simp only [NOMINAL, if_neg h1, if_neg h2]
        simp [isErr]
        tauto
      · intro hc
        constructor
        · exact ⟨_, by unfold EFFECT; rw [if_neg h1, if_neg h2]⟩
        · exact ⟨_, by unfold NOMINAL; rw [if_neg h1, if_neg h2]⟩

/-- Witness for C4 at rate 1 and periods 1/2: both functions report the
periods < 1 domain error, matching the amended condition. -/
theorem effect_nominal_domain_errors_witness :
    (isErr (EFFECT (JSNum.num 1) (JSNum.num (1/2))) ↔
      JSNum.num 1 = JSNum.nan ∨ JSNum.num (1/2) = JSNum.nan ∨
      jsLe (JSNum.num 1) (JSNum.num 0) ∨ jsLt (JSNum.num (1/2)) (JSNum.num 1)) ∧
    (isErr (NOMINAL (JSNum.num 1) (JSNum.num (1/2))) ↔
      JSNum.num 1 = JSNum.nan ∨ JSNum.num (1/2) = JSNum.nan ∨
      jsLe (JSNum.num 1) (JSNum.num 0) ∨ jsLt (JSNum.num (1/2)) (JSNum.num 1)) ∧
    (¬ (JSNum.num 1 = JSNum.nan ∨ JSNum.num (1/2) = JSNum.nan ∨
        jsLe (JSNum.num 1) (JSNum.num 0) ∨ jsLt (JSNum.num (1/2)) (JSNum.num 1)) →
      (∃ v, EFFECT (JSNum.num 1) (JSNum.num (1/2)) = Except.ok v) ∧
      ∃ w, NOMINAL (JSNum.num 1) (JSNum.num (1/2)) = Except.ok w) :=
  effect_nominal_domain_errors (JSNum.num 1) (JSNum.num (1/2))

/-- Counterexample to claim C4 as stated: Infinity is not a finite real
number, yet EFFECT(Infinity, 12) passes both guards (Infinity is not NaN, not
≤ 0) and returns the number Infinity, not a DomainError. -/
theorem effect_infinite_rate_returns_number :
    ¬ (JSNum.posInf).isFinite ∧
      EFFECT JSNum.posInf (JSNum.num 12) = Except.ok JSNum.posInf := by
  constructor
  · simp [JSNum.isFinite]
  · have hpi : jsParseInt (JSNum.num 12) = JSNum.num 12 := by
      simp [jsParseInt]
    unfold EFFECT
    rw [if_neg (by simp), if_neg (by simp [jsLe, jsLt])]
    rw [hpi]
    norm_num [jsDiv, jsAdd, jsPow, jsSub]

/-- Claim C10: for finite rate > 0 and real periods in [1, 2), EFFECT
validates on the untruncated periods, truncates it to 1, and returns
(1 + rate/1)^1 − 1 = rate exactly. -/
theorem effect_low_periods_identity (r p : ℝ) (hr : 0 < r) (h1 : 1 ≤ p) (h2 : p < 2) :
    EFFECT (JSNum.num r) (JSNum.num p) = Except.ok (JSNum.num r) := by
  have h1r : (0:ℝ) < 1 + r := by linarith
  have hpi : jsParseInt (JSNum.num p) = JSNum.num 1 := by
    have h0 : (0:ℝ) ≤ p := by linarith
    have hfl : (⌊p⌋ : ℤ) = 1 := by
      rw [Int.floor_eq_iff]
      constructor
      · exact_mod_cast h1
      · push_cast
        linarith
    simp [jsParseInt, h0, hfl]
  unfold EFFECT
  rw [if_neg (by simp),
    if_neg (by simp only [jsLe, jsLt, not_or]; exact ⟨not_le.mpr hr, not_lt.mpr h1⟩)]
  rw [hpi]
  have hd : jsDiv (JSNum.num r) (JSNum.num 1) = JSNum.num r := by
    simp [jsDiv]
  rw [hd]
  rw [show jsAdd (JSNum.num 1) (JSNum.num r) = JSNum.num (1 + r) from rfl]
  have hpow : jsPow (JSNum.num (1 + r)) (JSNum.num 1) = JSNum.num (1 + r) := by
    have hone : ((1 + r : ℝ) ^ (1:ℝ)) = 1 + r := Real.rpow_one _
    simp [jsPow, hone, ne_of_gt h1r, not_lt.mpr (le_of_lt h1r)]
  rw [hpow]
  rw [show jsSub (JSNum.num (1 + r)) (JSNum.num 1) = JSNum.num (1 + r - 1) from rfl]
  have : (1:ℝ) + r - 1 = r := by ring
  rw [this]

/-- Witness for C10 at rate 1/2 and periods 3/2. -/
theorem effect_low_periods_identity_witness :
    EFFECT (JSNum.num (1/2)) (JSNum.num (3/2)) = Except.ok (JSNum.num (1/2)) :=
  effect_low_periods_identity (1/2) (3/2) (by norm_num) (by norm_num) (by norm_num)

/-- Reduction of `jsPow` on two finite operands (definitional). -/
theorem jsPow_num_num (x e : ℝ) : jsPow (JSNum.num x) (JSNum.num e) =
    if e = 0 then JSNum.num 1
    else if x = 0 then (if 0 < e then JSNum.num 0 else JSNum.posInf)
    else if x < 0 ∧ ¬ IsIntR e then JSNum.nan
    else JSNum.num (x ^ e) := rfl

/-- Claim C8: for every effective rate e > 0 and integer k ≥ 1, NOMINAL
succeeds with the nominal rate ((e+1)^(1/k) − 1)·k, and feeding that rate back
into EFFECT succeeds and returns exactly e under exact real arithmetic. -/
theorem effect_nominal_roundtrip (e : ℝ) (k : ℕ) (he : 0 < e) (hk : 1 ≤ k) :
    NOMINAL (JSNum.num e) (JSNum.num (k : ℝ)) =
      Except.ok (JSNum.num (((e + 1) ^ ((1:ℝ) / (k : ℝ)) - 1) * (k : ℝ))) ∧
    EFFECT (JSNum.num (((e + 1) ^ ((1:ℝ) / (k : ℝ)) - 1) * (k : ℝ))) (JSNum.num (k : ℝ)) =
      Except.ok (JSNum.num e) := by
  have hk0 : (k : ℝ) ≠ 0 := Nat.cast_ne_zero.mpr (by omega)
  have hk1 : (1 : ℝ) ≤ (k : ℝ) := by exact_mod_cast hk
  have hkpos : (0 : ℝ) < (k : ℝ) := by linarith
  have he1 : (0 : ℝ) < e + 1 := by linarith
  have hA : (1 : ℝ) < (e + 1) ^ ((1:ℝ) / (k : ℝ)) := by
    rw [Real.one_lt_rpow_iff_of_pos he1]
    exact Or.inl ⟨by linarith, by positivity⟩
  have hApos : (0 : ℝ) < (e + 1) ^ ((1:ℝ) / (k : ℝ)) := by linarith
  have hr0pos : (0 : ℝ) < ((e + 1) ^ ((1:ℝ) / (k : ℝ)) - 1) * (k : ℝ) :=
    mul_pos (by linarith) hkpos
  have hpi : jsParseInt (JSNum.num (k : ℝ)) = JSNum.num (k : ℝ) := by
    simp [jsParseInt]
  constructor
  · unfold NOMINAL
    rw [if_neg (by simp),
      if_neg (by simp only [jsLe, jsLt, not_or]; exact ⟨not_le.mpr he, not_lt.mpr hk1⟩)]
    rw [hpi]
    have hd : jsDiv (JSNum.num 1) (JSNum.num (k : ℝ)) = JSNum.num (1 / (k : ℝ)) := by
      simp [jsDiv, hk0]
    rw [hd]
    rw [show jsAdd (JSNum.num e) (JSNum.num 1) = JSNum.num (e + 1) from rfl]
    have hpow : jsPow (JSNum.num (e + 1)) (JSNum.num (1 / (k : ℝ))) =
        JSNum.num ((e + 1) ^ ((1:ℝ) / (k : ℝ))) := by
      rw [jsPow_num_num, if_neg (one_div_ne_zero hk0), if_neg (ne_of_gt he1),
        if_neg (fun h => absurd h.1 (not_lt.mpr (le_of_lt he1)))]
    rw [hpow]
    rfl

  · unfold EFFECT
    rw [if_neg (by simp),
      if_neg (by simp only [jsLe, jsLt, not_or]; exact ⟨not_le.mpr hr0pos, not_lt.mpr hk1⟩)]
    rw [hpi]
    have hd : jsDiv (JSNum.num (((e + 1) ^ ((1:ℝ) / (k : ℝ)) - 1) * (k : ℝ)))
        (JSNum.num (k : ℝ)) = JSNum.num ((e + 1) ^ ((1:ℝ) / (k : ℝ)) - 1) := by
      simp only [jsDiv, if_neg hk0]
      rw [mul_div_cancel_right₀ _ hk0]
    rw [hd]
    have hadd : jsAdd (JSNum.num 1) (JSNum.num ((e + 1) ^ ((1:ℝ) / (k : ℝ)) - 1)) =
        JSNum.num ((e + 1) ^ ((1:ℝ) / (k : ℝ))) := by
      rw [show jsAdd (JSNum.num 1) (JSNum.num ((e + 1) ^ ((1:ℝ) / (k : ℝ)) - 1)) =
        JSNum.num (1 + ((e + 1) ^ ((1:ℝ) / (k : ℝ)) - 1)) from rfl]
      congr 1
      ring
    rw [hadd]
    have hcalc : ((e + 1) ^ ((1:ℝ) / (k : ℝ))) ^ ((k : ℕ) : ℝ) = e + 1 := by
      rw [← Real.rpow_mul (le_of_lt he1), one_div_mul_cancel hk0, Real.rpow_one]
    have hpow2 : jsPow (JSNum.num ((e + 1) ^ ((1:ℝ) / (k : ℝ)))) (JSNum.num (k : ℝ)) =
        JSNum.num (e + 1) := by
      rw [jsPow_num_num, if_neg hk0, if_neg (ne_of_gt hApos),
        if_neg (fun h => absurd h.1 (not_lt.mpr (le_of_lt hApos)))]
      congr 1
    rw [hpow2]
    rw [show jsSub (JSNum.num (e + 1)) (JSNum.num 1) = JSNum.num (e + 1 - 1) from rfl]
    congr 2
    ring

/-- The loop described by the spec and the loop of the source compute the same
function: their step and stop conditions coincide (the residual definitions
are syntactically identical). -/
theorem secantGo_eq_rateGo (periods payment present future type : ℝ) :
    ∀ (k : ℕ) (s : RState),
      secantGo periods payment present future type k s =
        rateGo periods payment present future type k s := by
  intro k
  induction k with
  | zero => intro s; rfl
  | succ m ih =>
    intro s
    by_cases h : |s.y0 - s.y1| ≤ epsMax
    · simp [secantGo, rateGo, h]
    · simp only [secantGo, rateGo, if_neg h]
      rw [show secantStep periods payment present future type s =
        rateStep periods payment present future type s from rfl]
      exact ih _

/-- Claim C2 (amended): RATE runs the secant iteration exactly as the spec
describes it — same update formula, same residual branches, same stop
condition — **provided** |guess| ≥ 1e-10, in which case the initial y1 is the
exponential residual at the guess.  When |guess| < 1e-10 the source never sets
`f`, so the initial y1 is computed from the stale `f = 0` as
present·0 + payment·(1/guess + type)·(0 − 1) + future, which is not the
residual at the guess (see the counterexample). -/
theorem rate_runs_secant_iteration (periods payment present future type guess : ℝ) :
    (epsMax ≤ |guess| →
      RATE periods payment present future type guess =
        RATEspec periods payment present future type guess) ∧
    (|guess| < epsMax →
      RATE periods payment present future type guess =
        rateGo periods payment present future type iterMax
          ⟨0, guess, present + payment * periods + future,
            present * 0 + payment * (1 / guess + type) * (0 - 1) + future⟩) := by
  constructor
  · intro h
    have hne : ¬ |guess| < epsMax := not_lt.mpr h
    unfold RATE RATEspec rateInit
    rw [secantGo_eq_rateGo]
    congr 1
    simp only [RState.mk.injEq]
    refine ⟨trivial, trivial, trivial, ?_⟩
    rw [if_neg hne]
    unfold secantResidual
    rw [if_neg hne]
  · intro h
    unfold RATE rateInit
    congr 1
    simp only [RState.mk.injEq]
    refine ⟨trivial, trivial, trivial, ?_⟩
    rw [if_pos h]

/-- Witness for C2 with the default guess 0.01 (well above the 1e-10
threshold) on a simple annuity. -/
theorem rate_runs_secant_iteration_witness :
    RATE 1 1 1 0 0 (1/100) = RATEspec 1 1 1 0 0 (1/100) :=
  (rate_runs_secant_iteration 1 1 1 0 0 (1/100)).1
    (by rw [show |((1:ℝ)/100)| = 1/100 from abs_of_pos (by norm_num)]
        rw [show epsMax = 1e-10 from rfl]
        norm_num)

/-- Counterexample to claim C2 as stated: with periods 1, payment 0,
present 1, future −1, type 0 and the tiny guess 1e-11, the spec initialization
has y1 = residual(1e-11) = 1e-11, so |y0 − y1| = 1e-11 ≤ 1e-10 and the spec
iteration stops immediately at the guess; the source instead computes the
initial y1 from the stale f = 0, getting y1 = −1, iterates twice and returns
0 ≠ 1e-11. -/
theorem rate_differs_from_secant_spec :
    RATE 1 0 1 (-1) 0 (1e-11) ≠ RATEspec 1 0 1 (-1) 0 (1e-11) := by
  have heps : epsMax = 1e-10 := rfl
  have hglt : |(1e-11:ℝ)| < epsMax := by
    rw [heps, abs_of_pos (by norm_num : (0:ℝ) < 1e-11)]
    norm_num
  have hinit : rateInit 1 0 1 (-1) 0 (1e-11) = ⟨0, 1e-11, 0, -1⟩ := by
    unfold rateInit
    rw [if_pos hglt]
    simp only [RState.mk.injEq]
    norm_num
  have hres0 : rateResidual 1 0 1 (-1) 0 0 = 0 := by
    unfold rateResidual
    rw [if_pos (by rw [heps]; norm_num : |(0:ℝ)| < epsMax)]
    norm_num
  have hs1 : rateStep 1 0 1 (-1) 0 ⟨0, 1e-11, 0, -1⟩ = ⟨1e-11, 0, -1, 0⟩ := by
    unfold rateStep
    have hr : ((-1:ℝ) * 0 - 0 * 1e-11) / (-1 - 0) = 0 := by norm_num
    dsimp only
    rw [hr, hres0]
  have hs2 : rateStep 1 0 1 (-1) 0 ⟨1e-11, 0, -1, 0⟩ = ⟨0, 0, 0, 0⟩ := by
    unfold rateStep
    have hr : ((0:ℝ) * 1e-11 - (-1) * 0) / (0 - -1) = 0 := by norm_num
    dsimp only
    rw [hr, hres0]
  have hcode : RATE 1 0 1 (-1) 0 (1e-11) = 0 := by
    unfold RATE
    rw [hinit]
    have e1 : rateGo 1 0 1 (-1) 0 iterMax ⟨0, 1e-11, 0, -1⟩ =
        rateGo 1 0 1 (-1) 0 49 (rateStep 1 0 1 (-1) 0 ⟨0, 1e-11, 0, -1⟩) :=
      rateGo_cont 1 0 1 (-1) 0 49 _
        (by rw [heps]
            norm_num : epsMax < |(0:ℝ) - (-1)|)
    rw [e1, hs1]
    have e2 : rateGo 1 0 1 (-1) 0 49 ⟨1e-11, 0, -1, 0⟩ =
        rateGo 1 0 1 (-1) 0 48 (rateStep 1 0 1 (-1) 0 ⟨1e-11, 0, -1, 0⟩) :=
      rateGo_cont 1 0 1 (-1) 0 48 _
        (by rw [heps]
            norm_num : epsMax < |(-1:ℝ) - 0|)
    rw [e2, hs2]
    exact rateGo_stop 1 0 1 (-1) 0 48 _
      (by rw [heps]
          norm_num : |(0:ℝ) - 0| ≤ epsMax)
  have hspec : RATEspec 1 0 1 (-1) 0 (1e-11) = 1e-11 := by
    unfold RATEspec
    have hres : secantResidual 1 0 1 (-1) 0 (1e-11) = 1e-11 := by
      unfold secantResidual
      rw [if_pos hglt]
      norm_num
    rw [hres, secantGo_eq_rateGo]
    exact rateGo_stop 1 0 1 (-1) 0 iterMax _
      (by rw [heps, abs_of_nonpos (by norm_num : (1 + 0 * 1 + (-1) : ℝ) - 1e-11 ≤ 0)]
          norm_num : |(1 + 0 * 1 + (-1) : ℝ) - 1e-11| ≤ epsMax)
  rw [hcode, hspec]
  norm_num

/-- Witness for C8 at effective rate 3 and 2 compounding periods per year. -/
theorem effect_nominal_roundtrip_witness :
    NOMINAL (JSNum.num 3) (JSNum.num ((2:ℕ) : ℝ)) =
      Except.ok (JSNum.num (((3 + 1) ^ ((1:ℝ) / ((2:ℕ) : ℝ)) - 1) * ((2:ℕ) : ℝ))) ∧
    EFFECT (JSNum.num (((3 + 1) ^ ((1:ℝ) / ((2:ℕ) : ℝ)) - 1) * ((2:ℕ) : ℝ)))
        (JSNum.num ((2:ℕ) : ℝ)) =
      Except.ok (JSNum.num 3) :=
  effect_nominal_roundtrip 3 2 (by norm_num) (by norm_num)

end
